import Mathlib

/-!
Shallow embedding of `greeter_async_server.cc` (gRPC asynchronous helloworld
server example) and proofs of its specification claims.

The program consists of:
* a per-call state machine `CallDataBase` with states `PROCESS` and `FINISH`
  and a transition method `Proceed`;
* two concrete variants `HelloCallData` and `ByeCallData` whose `Process`
  methods spawn a replacement instance, compute a reply from the request name,
  and invoke the asynchronous `Finish` with the instance's own address as tag;
* an event-dispatcher loop `HandleRpcs` that blocks on the completion queue's
  `Next`, asserts both the return value of `Next` and the event's `ok` flag
  with `GPR_ASSERT` (which aborts the process on failure), and calls `Proceed`
  on the tagged instance;
* a destructor `~ServerImpl` that shuts down the server and then the queue;
* a `main` that ignores its arguments and runs the server on the fixed
  address `0.0.0.0:50051` with insecure credentials.

Side effects (object construction, setting the reply message, the `Finish`
call) are embedded as explicit trace elements in the order the source
performs them; the self-deleting object pattern is embedded as a `Release`
action returned to the dispatcher, and the whole server is additionally
modelled as a labelled transition system over the multiset of live call
instances to settle global lifecycle claims.
-/

namespace GreeterAsync

/-- The two serving states of the tiny state machine in `CallDataBase`
(`enum CallStatus { PROCESS, FINISH }`). -/
inductive CallStatus where
  | PROCESS
  | FINISH
deriving DecidableEq, Repr

/-- Result of one `Proceed` call as seen by the dispatcher: either the
instance stays alive awaiting a further event (the `status_ == PROCESS`
branch, which returns normally), or it is deallocated (`delete this` in the
`FINISH` branch). -/
inductive Action where
  | Continue
  | Release
deriving DecidableEq, Repr

/-- The tag identifying a call instance; in the source it is the instance's
memory address, embedded here as a natural number. -/
abbrev CallHandle := Nat

/-- The two RPC methods served: `SayHello` (HelloCallData) and `SayGoodbye`
(ByeCallData). -/
inductive Method where
  | Hello
  | Bye
deriving DecidableEq, Repr

/-- `helloworld::HelloRequest`: carries a `name` field. -/
structure HelloRequest where
  name : String
deriving DecidableEq, Repr

/-- `helloworld::HelloReply`: carries a `message` field. -/
structure HelloReply where
  message : String
deriving DecidableEq, Repr

/-- `helloworld::GoodbyeRequest`: carries a `name` field. -/
structure GoodbyeRequest where
  name : String
deriving DecidableEq, Repr

/-- `helloworld::GoodbyeReply`: carries a `message` field. -/
structure GoodbyeReply where
  message : String
deriving DecidableEq, Repr

/-- The mutable fields of one call instance relevant to the claims: the
serving state `status_`, the request buffer and the reply buffer.  The
request/reply types are parameters because the two variants differ only in
payload types and response logic. -/
structure CallData (Req Rep : Type) where
  status : CallStatus
  request : Req
  reply : Rep
deriving DecidableEq, Repr

/-- One observable side effect performed during a `Proceed` call, in source
order: constructing a replacement instance (`new HelloCallData(...)` /
`new ByeCallData(...)`), writing the reply message (`set_message`), or
handing the reply to the transport (`responder_.Finish(reply, Status::OK,
this)`, whose tag is the instance's own handle). -/
inductive SideEffect (Rep : Type) where
  | newCallData (m : Method)
  | setMessage (r : Rep)
  | finish (r : Rep) (tag : CallHandle)
deriving DecidableEq, Repr

/-- `HelloCallData::Process`: spawns a new `HelloCallData`, sets
`reply_.message` to `"Hello " + request_.name()`, and calls
`responder_.Finish(reply_, Status::OK, this)`.  Returns the updated fields
and the trace of side effects in source order. -/
def HelloCallData.Process (self : CallHandle)
    (c : CallData HelloRequest HelloReply) :
    CallData HelloRequest HelloReply × List (SideEffect HelloReply) :=
  let r : HelloReply := { message := "Hello " ++ c.request.name }
  ({ c with reply := r },
   [SideEffect.newCallData Method.Hello, SideEffect.setMessage r,
    SideEffect.finish r self])

/-- `ByeCallData::Process`: spawns a new `ByeCallData`, sets
`reply_.message` to `"Goodbye " + request_.name()`, and calls
`responder_.Finish(reply_, Status::OK, this)`. -/
def ByeCallData.Process (self : CallHandle)
    (c : CallData GoodbyeRequest GoodbyeReply) :
    CallData GoodbyeRequest GoodbyeReply × List (SideEffect GoodbyeReply) :=
  let r : GoodbyeReply := { message := "Goodbye " ++ c.request.name }
  ({ c with reply := r },
   [SideEffect.newCallData Method.Bye, SideEffect.setMessage r,
    SideEffect.finish r self])

/-- `CallDataBase::Proceed`: if `status_ == PROCESS`, set `status_ = FINISH`
and run the variant's `Process` (the instance stays alive: `Continue`);
otherwise `status_ == FINISH` and the instance deletes itself (`Release`,
with no side effects).  `process` is the virtual `Process` method of the
concrete variant. -/
def CallDataBase.Proceed {Req Rep : Type}
    (process : CallHandle → CallData Req Rep → CallData Req Rep × List (SideEffect Rep))
    (self : CallHandle) (c : CallData Req Rep) :
    CallData Req Rep × List (SideEffect Rep) × Action :=
  match c.status with
  | CallStatus.PROCESS =>
      let pr := process self { c with status := CallStatus.FINISH }
      (pr.1, pr.2, Action.Continue)
  | CallStatus.FINISH =>
      (c, [], Action.Release)

/-- `Proceed` of a `HelloCallData` instance: the base-class skeleton with
the Hello variant's `Process`. -/
def HelloCallData.Proceed (self : CallHandle)
    (c : CallData HelloRequest HelloReply) :
    CallData HelloRequest HelloReply × List (SideEffect HelloReply) × Action :=
  CallDataBase.Proceed HelloCallData.Process self c

/-- `Proceed` of a `ByeCallData` instance: the base-class skeleton with the
Bye variant's `Process`. -/
def ByeCallData.Proceed (self : CallHandle)
    (c : CallData GoodbyeRequest GoodbyeReply) :
    CallData GoodbyeRequest GoodbyeReply × List (SideEffect GoodbyeReply) × Action :=
  CallDataBase.Proceed ByeCallData.Process self c

/-- What the completion queue's blocking `Next(&tag, &ok)` can report:
either it returns `true` with an event `(tag, ok)`, or it returns `false`,
which signals that the queue is shutting down. -/
inductive NextResult where
  | event (tag : CallHandle) (ok : Bool)
  | shutdown
deriving DecidableEq, Repr

/-- Outcome of one iteration of the `HandleRpcs` loop body: the process
aborts (a `GPR_ASSERT` failed), the loop returns cleanly, or `Proceed` is
invoked on the tagged instance and the loop continues. -/
inductive LoopOutcome where
  | abort
  | exitLoop
  | proceedCall (tag : CallHandle)
deriving DecidableEq, Repr

/-- One iteration of the `while (true)` body of `ServerImpl::HandleRpcs`:
`GPR_ASSERT(cq_->Next(&tag, &ok))` aborts the process when `Next` returns
`false` (queue shutdown); otherwise `GPR_ASSERT(ok)` aborts when the event's
`ok` flag is `false`; otherwise `static_cast<CallDataBase*>(tag)->Proceed()`
runs and the loop iterates again. -/
def HandleRpcs.loopBody : NextResult → LoopOutcome
  | NextResult.shutdown => LoopOutcome.abort
  | NextResult.event tag ok =>
      if ok then LoopOutcome.proceedCall tag else LoopOutcome.abort

/-- The two transport shutdown operations invoked by `~ServerImpl`. -/
inductive ShutdownOp where
  | shutdownServer
  | shutdownQueue
deriving DecidableEq, Repr

/-- The destructor `ServerImpl::~ServerImpl()` in source order:
`server_->Shutdown();` then `cq_->Shutdown();`. -/
def ServerImpl.destructorOps : List ShutdownOp :=
  [ShutdownOp.shutdownServer, ShutdownOp.shutdownQueue]

/-- The transport configuration assembled by `ServerImpl::Run`: the literal
listening address `"0.0.0.0:50051"` and `grpc::InsecureServerCredentials()`. -/
structure ServerConfig where
  address : String
  insecureCredentials : Bool
deriving DecidableEq, Repr

/-- `ServerImpl::Run` builds its configuration from the local constant
`server_address("0.0.0.0:50051")` and `InsecureServerCredentials()`. -/
def ServerImpl.runConfig : ServerConfig :=
  { address := "0.0.0.0:50051", insecureCredentials := true }

/-- `main(argc, argv)`: constructs a `ServerImpl`, calls `Run()` (whose
configuration is `ServerImpl.runConfig`) and returns `0`.  Neither `argc`
nor `argv` is read. -/
def main (argc : Nat) (argv : List String) : Nat × ServerConfig :=
  (0, ServerImpl.runConfig)

/-- One live call instance in the whole-server model: its tag (`handle`),
its concrete variant (`method`), its serving state, and how many times
`Proceed` has been invoked on it so far. -/
structure Inst where
  handle : CallHandle
  method : Method
  status : CallStatus
  proceeds : Nat
deriving DecidableEq, Repr

/-- A freshly constructed instance: state `PROCESS` (set by the
`CallDataBase` constructor), no `Proceed` call yet. -/
def Inst.fresh (h : CallHandle) (m : Method) : Inst :=
  { handle := h, method := m, status := CallStatus.PROCESS, proceeds := 0 }

/-- Whole-server state: the next unused handle value and the list of live
call instances. -/
structure SState where
  nextHandle : CallHandle
  insts : List Inst
deriving DecidableEq, Repr

/-- The state right after the first two lines of `ServerImpl::HandleRpcs`:
`new HelloCallData(&service_, cq_.get()); new ByeCallData(&service_,
cq_.get());` — exactly one initial instance per method, both in `PROCESS`. -/
def initState : SState :=
  { nextHandle := 2,
    insts := [Inst.fresh 0 Method.Hello, Inst.fresh 1 Method.Bye] }

/-- Observable label of one dispatcher iteration: `Proceed` was invoked on
the instance with the given handle and produced the given action. -/
inductive StepLabel where
  | advanced (h : CallHandle) (a : Action)
deriving DecidableEq, Repr

/-- One successful iteration of the dispatcher loop (an event with `ok =
true` delivered for a live instance, on which `Proceed` is invoked).

* `processEvent`: the instance is in `PROCESS`; `Proceed` moves it to
  `FINISH` and its `Process` constructs a fresh instance of the same
  concrete variant; the instance stays alive (`Continue`).
* `finishEvent`: the instance is in `FINISH`; `Proceed` deletes it
  (`Release`) and the dispatcher loses it. -/
inductive DispatchStep : SState → StepLabel → SState → Prop where
  | processEvent (n : CallHandle) (pre post : List Inst) (i : Inst)
      (hst : i.status = CallStatus.PROCESS) :
      DispatchStep
        { nextHandle := n, insts := pre ++ i :: post }
        (StepLabel.advanced i.handle Action.Continue)
        { nextHandle := n + 1,
          insts := pre ++
            { i with status := CallStatus.FINISH, proceeds := i.proceeds + 1 } ::
            (post ++ [Inst.fresh n i.method]) }
  | finishEvent (n : CallHandle) (pre post : List Inst) (i : Inst)
      (hst : i.status = CallStatus.FINISH) :
      DispatchStep
        { nextHandle := n, insts := pre ++ i :: post }
        (StepLabel.advanced i.handle Action.Release)
        { nextHandle := n, insts := pre ++ post }

/-- Server states reachable from `initState` by dispatcher iterations. -/
inductive Reachable : SState → Prop where
  | init : Reachable initState
  | step {s : SState} {l : StepLabel} {s2 : SState} :
      Reachable s → DispatchStep s l s2 → Reachable s2

/-- Invariant: every method always has a live accepting instance. -/
def acceptorAlive (s : SState) : Prop :=
  ∀ m : Method, ∃ i ∈ s.insts,
    i.method = m ∧ i.status = CallStatus.PROCESS

/-- Invariant: a live instance has seen zero `Proceed` calls while in
`PROCESS` and exactly one while in `FINISH`. -/
def proceedCountOk (s : SState) : Prop :=
  ∀ i ∈ s.insts,
    (i.status = CallStatus.PROCESS ∧ i.proceeds = 0) ∨
    (i.status = CallStatus.FINISH ∧ i.proceeds = 1)

theorem acceptorAlive_init : acceptorAlive initState := by
  intro m
  cases m
  · exact ⟨Inst.fresh 0 Method.Hello, by simp [initState], rfl, rfl⟩
  · exact ⟨Inst.fresh 1 Method.Bye, by simp [initState], rfl, rfl⟩

theorem acceptorAlive_step {s : SState} {l : StepLabel} {s2 : SState}
    (hstep : DispatchStep s l s2) (hinv : acceptorAlive s) :
    acceptorAlive s2 := by
  cases hstep with
  | processEvent n pre post i hst =>
      intro m
      obtain ⟨j, hjmem, hjm, hjst⟩ := hinv m
      simp only [List.mem_append, List.mem_cons] at hjmem
      rcases hjmem with hjpre | hji | hjpost
      · exact ⟨j, by simp [hjpre], hjm, hjst⟩
      · subst hji
        refine ⟨Inst.fresh n j.method, ?_, hjm, rfl⟩
        simp [Inst.fresh]
      · exact ⟨j, by simp [hjpost], hjm, hjst⟩
  | finishEvent n pre post i hst =>
      intro m
      obtain ⟨j, hjmem, hjm, hjst⟩ := hinv m
      simp only [List.mem_append, List.mem_cons] at hjmem
      rcases hjmem with hjpre | hji | hjpost
      · exact ⟨j, by simp [hjpre], hjm, hjst⟩
      · subst hji
        rw [hst] at hjst
        cases hjst
      · exact ⟨j, by simp [hjpost], hjm, hjst⟩

theorem acceptorAlive_reachable {s : SState} (hr : Reachable s) :
    acceptorAlive s := by
  induction hr with
  | init => exact acceptorAlive_init
  | step _ hstep ih => exact acceptorAlive_step hstep ih

theorem proceedCountOk_init : proceedCountOk initState := by
  intro i hi
  simp only [initState, List.mem_cons, List.not_mem_nil, or_false] at hi
  rcases hi with h | h <;> subst h <;> exact Or.inl ⟨rfl, rfl⟩

theorem proceedCountOk_step {s : SState} {l : StepLabel} {s2 : SState}
    (hstep : DispatchStep s l s2) (hinv : proceedCountOk s) :
    proceedCountOk s2 := by
  cases hstep with
  | processEvent n pre post i hst =>
      intro j hj
      simp only [List.mem_append, List.mem_cons, List.not_mem_nil, or_false] at hj
      rcases hj with hjpre | hji | hjpost | hjnew
      · exact hinv j (by simp [hjpre])
      · subst hji
        have hcount := hinv i (by simp)
        rcases hcount with ⟨_, hc⟩ | ⟨habs, _⟩
        · exact Or.inr ⟨rfl, by simp [hc]⟩
        · rw [hst] at habs; cases habs
      · exact hinv j (by simp [hjpost])
      · subst hjnew
        exact Or.inl ⟨rfl, rfl⟩
  | finishEvent n pre post i hst =>
      intro j hj
      simp only [List.mem_append] at hj
      rcases hj with hjpre | hjpost
      · exact hinv j (by simp [hjpre])
      · exact hinv j (by simp [hjpost])

theorem proceedCountOk_reachable {s : SState} (hr : Reachable s) :
    proceedCountOk s := by
  induction hr with
  | init => exact proceedCountOk_init
  | step _ hstep ih => exact proceedCountOk_step hstep ih

/-- Inversion of a `Release`-labelled step: the state decomposes around a
released instance that was in `FINISH`, and the successor state is the same
list with that instance removed. -/
theorem release_step_inv {s : SState} {h : CallHandle} {s2 : SState}
    (hstep : DispatchStep s (StepLabel.advanced h Action.Release) s2) :
    ∃ pre post i, s.insts = pre ++ i :: post ∧ i.handle = h ∧
      i.status = CallStatus.FINISH ∧ s2.insts = pre ++ post := by
  cases hstep with
  | finishEvent n pre post i hst =>
      exact ⟨pre, post, i, rfl, rfl, hst, rfl⟩

/-- `Proceed` on an instance in `PROCESS`: reduce to the `Process` branch. -/
theorem CallDataBase.Proceed_of_PROCESS {Req Rep : Type}
    (process : CallHandle → CallData Req Rep → CallData Req Rep × List (SideEffect Rep))
    (self : CallHandle) (c : CallData Req Rep)
    (h : c.status = CallStatus.PROCESS) :
    CallDataBase.Proceed process self c =
      ((process self { c with status := CallStatus.FINISH }).1,
       (process self { c with status := CallStatus.FINISH }).2,
       Action.Continue) := by
  unfold CallDataBase.Proceed
  split
  · rfl
  · simp_all

/-- `Proceed` on an instance in `FINISH`: reduce to the deletion branch. -/
theorem CallDataBase.Proceed_of_FINISH {Req Rep : Type}
    (process : CallHandle → CallData Req Rep → CallData Req Rep × List (SideEffect Rep))
    (self : CallHandle) (c : CallData Req Rep)
    (h : c.status = CallStatus.FINISH) :
    CallDataBase.Proceed process self c = (c, [], Action.Release) := by
  unfold CallDataBase.Proceed
  split
  · simp_all
  · rfl

/-- C1: for an instance in `Processing`, `Proceed` (for either concrete
variant) moves the state to `Finishing`; the very first side effect is the
construction of a fresh sibling of the same concrete type, before the
response is produced; the response stored and handed to `Finish` is the pure
function of the request's name (prefixing `"Hello "` resp. `"Goodbye "`);
`Finish` is tagged with the instance's own handle; and the result action is
`Continue` — the instance is not released. -/
theorem claim_C1_processing_advance (self : CallHandle)
    (ch : CallData HelloRequest HelloReply)
    (cb : CallData GoodbyeRequest GoodbyeReply)
    (hh : ch.status = CallStatus.PROCESS)
    (hb : cb.status = CallStatus.PROCESS) :
    ((HelloCallData.Proceed self ch).1.status = CallStatus.FINISH ∧
     (HelloCallData.Proceed self ch).2.1.head? =
       some (SideEffect.newCallData Method.Hello) ∧
     (HelloCallData.Proceed self ch).1.reply =
       { message := "Hello " ++ ch.request.name } ∧
     SideEffect.finish { message := "Hello " ++ ch.request.name } self ∈
       (HelloCallData.Proceed self ch).2.1 ∧
     (HelloCallData.Proceed self ch).2.2 = Action.Continue) ∧
    ((ByeCallData.Proceed self cb).1.status = CallStatus.FINISH ∧
     (ByeCallData.Proceed self cb).2.1.head? =
       some (SideEffect.newCallData Method.Bye) ∧
     (ByeCallData.Proceed self cb).1.reply =
       { message := "Goodbye " ++ cb.request.name } ∧
     SideEffect.finish { message := "Goodbye " ++ cb.request.name } self ∈
       (ByeCallData.Proceed self cb).2.1 ∧
     (ByeCallData.Proceed self cb).2.2 = Action.Continue) := by
  rw [HelloCallData.Proceed, ByeCallData.Proceed,
    CallDataBase.Proceed_of_PROCESS HelloCallData.Process self ch hh,
    CallDataBase.Proceed_of_PROCESS ByeCallData.Process self cb hb]
  simp [HelloCallData.Process, ByeCallData.Process]

/-- Closed witness for C1: a `Processing` Hello instance and a `Processing`
Bye instance, both with request name `"World"`, tagged `5`. -/
theorem claim_C1_processing_advance_witness :
    ((HelloCallData.Proceed 5
        { status := CallStatus.PROCESS, request := { name := "World" },
          reply := { message := "" } }).2.2 = Action.Continue) ∧
    ((ByeCallData.Proceed 5
        { status := CallStatus.PROCESS, request := { name := "World" },
          reply := { message := "" } }).2.2 = Action.Continue) :=
  ⟨(claim_C1_processing_advance 5
      { status := CallStatus.PROCESS, request := { name := "World" },
        reply := { message := "" } }
      { status := CallStatus.PROCESS, request := { name := "World" },
        reply := { message := "" } } rfl rfl).1.2.2.2.2,
   (claim_C1_processing_advance 5
      { status := CallStatus.PROCESS, request := { name := "World" },
        reply := { message := "" } }
      { status := CallStatus.PROCESS, request := { name := "World" },
        reply := { message := "" } } rfl rfl).2.2.2.2.2⟩

/-- C2: `Proceed` yields `Release` exactly when the instance is in
`Finishing` (so never in `Processing`); and in the whole-server model, a
`Release`-labelled dispatcher step removes the released instance — which was
in `Finishing` — from the live list, its resources reclaimed by the caller. -/
theorem claim_C2_release_only_finishing :
    (∀ (Req Rep : Type)
       (process : CallHandle → CallData Req Rep → CallData Req Rep × List (SideEffect Rep))
       (self : CallHandle) (c : CallData Req Rep),
      (CallDataBase.Proceed process self c).2.2 = Action.Release ↔
        c.status = CallStatus.FINISH) ∧
    (∀ (s : SState) (h : CallHandle) (s2 : SState),
      DispatchStep s (StepLabel.advanced h Action.Release) s2 →
      ∃ pre post i, s.insts = pre ++ i :: post ∧ i.handle = h ∧
        i.status = CallStatus.FINISH ∧ s2.insts = pre ++ post) := by
  constructor
  · intro Req Rep process self c
    constructor
    · intro hrel
      cases hst : c.status
      · rw [CallDataBase.Proceed_of_PROCESS process self c hst] at hrel
        cases hrel
      · rfl
    · intro hf
      rw [CallDataBase.Proceed_of_FINISH process self c hf]
  · intro s h s2 hstep
    exact release_step_inv hstep

/-- Closed witness for C2: a `Finishing` Hello instance is released by
`Proceed`. -/
theorem claim_C2_release_only_finishing_witness :
    (CallDataBase.Proceed HelloCallData.Process 0
      { status := CallStatus.FINISH, request := { name := "World" },
        reply := { message := "Hello World" } }).2.2 = Action.Release :=
  (claim_C2_release_only_finishing.1 HelloRequest HelloReply
    HelloCallData.Process 0
    { status := CallStatus.FINISH, request := { name := "World" },
      reply := { message := "Hello World" } }).mpr rfl

/-- Counterexample to C3 as stated: when `Next` reports queue shutdown, the
loop body of `HandleRpcs` does not exit the loop cleanly — the failed
`GPR_ASSERT(cq_->Next(&tag, &ok))` aborts the process. -/
theorem claim_C3_counterexample :
    HandleRpcs.loopBody NextResult.shutdown = LoopOutcome.abort ∧
    LoopOutcome.abort ≠ LoopOutcome.exitLoop := by
  decide

/-- C3 amended: a queue-shutdown indication from `Next` makes the loop body
abort the process (failed assertion), and no input at all makes the loop
exit cleanly — every iteration either aborts or advances a tagged instance
and loops again. -/
theorem claim_C3_shutdown_aborts :
    HandleRpcs.loopBody NextResult.shutdown = LoopOutcome.abort ∧
    ∀ r : NextResult, HandleRpcs.loopBody r = LoopOutcome.abort ∨
      ∃ t : CallHandle, HandleRpcs.loopBody r = LoopOutcome.proceedCall t := by
  refine ⟨rfl, ?_⟩
  intro r
  cases r with
  | shutdown => exact Or.inl rfl
  | event tag ok =>
      cases ok
      · exact Or.inl rfl
      · exact Or.inr ⟨tag, rfl⟩

/-- C4: an event delivered with `ok = false` makes the loop body abort the
process (`GPR_ASSERT(ok)` fails) — `Proceed` is not invoked on the tagged
instance, so it is neither advanced nor released; when `ok = true` the
assertion passes and `Proceed` is invoked. -/
theorem claim_C4_event_not_ok_fatal (tag : CallHandle) :
    HandleRpcs.loopBody (NextResult.event tag false) = LoopOutcome.abort ∧
    HandleRpcs.loopBody (NextResult.event tag true) =
      LoopOutcome.proceedCall tag :=
  ⟨rfl, rfl⟩

/-- C5: `HandleRpcs` primes the queue with exactly one initial instance per
method (one Hello, one Bye), and in every reachable server state each method
has at least one live instance in `Processing` — the replenishment step of
`Process` keeps every method perpetually acceptable. -/
theorem claim_C5_acceptor_always_alive :
    (initState.insts.countP (fun i => i.method == Method.Hello) = 1 ∧
     initState.insts.countP (fun i => i.method == Method.Bye) = 1 ∧
     initState.insts.length = 2) ∧
    ∀ s : SState, Reachable s → ∀ m : Method, ∃ i ∈ s.insts,
      i.method = m ∧ i.status = CallStatus.PROCESS := by
  refine ⟨by decide, ?_⟩
  intro s hr m
  exact acceptorAlive_reachable hr m

/-- Closed witness for C5: the initial state itself has a live `Processing`
acceptor for the Hello method. -/
theorem claim_C5_acceptor_always_alive_witness :
    ∃ i ∈ initState.insts,
      i.method = Method.Hello ∧ i.status = CallStatus.PROCESS :=
  claim_C5_acceptor_always_alive.2 initState Reachable.init Method.Hello

/-- C6: in every reachable state, every live instance has had `Proceed`
invoked zero times (still `Processing`) or exactly once (now `Finishing`);
and any `Release` step acts on a `Finishing` instance whose releasing
`Proceed` call is its second and last — so `advance` runs exactly twice over
a released instance's lifetime, with no state skipped. -/
theorem claim_C6_advance_twice (s : SState) (hr : Reachable s) :
    (∀ i ∈ s.insts,
      (i.status = CallStatus.PROCESS ∧ i.proceeds = 0) ∨
      (i.status = CallStatus.FINISH ∧ i.proceeds = 1)) ∧
    ∀ (h : CallHandle) (s2 : SState),
      DispatchStep s (StepLabel.advanced h Action.Release) s2 →
      ∃ i ∈ s.insts, i.handle = h ∧ i.status = CallStatus.FINISH ∧
        i.proceeds + 1 = 2 := by
  refine ⟨proceedCountOk_reachable hr, ?_⟩
  intro h s2 hstep
  obtain ⟨pre, post, i, hs, hhd, hst, _⟩ := release_step_inv hstep
  have hmem : i ∈ s.insts := by rw [hs]; simp
  have hcount := proceedCountOk_reachable hr i hmem
  rcases hcount with ⟨habs, _⟩ | ⟨_, hone⟩
  · rw [hst] at habs; cases habs
  · exact ⟨i, hmem, hhd, hst, by rw [hone]⟩

/-- Closed witness for C6: in the initial state (reachable), the initial
Hello instance is `Processing` with zero `Proceed` calls so far. -/
theorem claim_C6_advance_twice_witness :
    ((Inst.fresh 0 Method.Hello).status = CallStatus.PROCESS ∧
     (Inst.fresh 0 Method.Hello).proceeds = 0) ∨
    ((Inst.fresh 0 Method.Hello).status = CallStatus.FINISH ∧
     (Inst.fresh 0 Method.Hello).proceeds = 1) :=
  (claim_C6_advance_twice initState Reachable.init).1
    (Inst.fresh 0 Method.Hello) (by decide)

/-- C7: the greeting response is the pure concatenation of `"Hello "` with
the request's name; at name `"World"` it is `"Hello World"`. -/
theorem claim_C7_hello_world :
    (∀ (self : CallHandle) (c : CallData HelloRequest HelloReply),
      ((HelloCallData.Process self c).1).reply.message =
        "Hello " ++ c.request.name) ∧
    ((HelloCallData.Process 0
        { status := CallStatus.PROCESS, request := { name := "World" },
          reply := { message := "" } }).1).reply.message = "Hello World" :=
  ⟨fun _ _ => rfl, rfl⟩

/-- C8: the farewell response is the pure concatenation of `"Goodbye "` with
the request's name; at name `"World"` it is `"Goodbye World"`. -/
theorem claim_C8_goodbye_world :
    (∀ (self : CallHandle) (c : CallData GoodbyeRequest GoodbyeReply),
      ((ByeCallData.Process self c).1).reply.message =
        "Goodbye " ++ c.request.name) ∧
    ((ByeCallData.Process 0
        { status := CallStatus.PROCESS, request := { name := "World" },
          reply := { message := "" } }).1).reply.message = "Goodbye World" :=
  ⟨fun _ _ => rfl, rfl⟩

/-- C9: in `~ServerImpl`, both shutdown operations occur, and every server
shutdown occurs strictly before every queue shutdown — the queue shutdown
never precedes the server shutdown. -/
theorem claim_C9_shutdown_order :
    (ShutdownOp.shutdownServer ∈ ServerImpl.destructorOps ∧
     ShutdownOp.shutdownQueue ∈ ServerImpl.destructorOps) ∧
    ∀ i j : Fin ServerImpl.destructorOps.length,
      ServerImpl.destructorOps.get i = ShutdownOp.shutdownServer →
      ServerImpl.destructorOps.get j = ShutdownOp.shutdownQueue →
      (i : Nat) < (j : Nat) := by
  decide

/-- Closed witness for C9: position 0 (the server shutdown) precedes
position 1 (the queue shutdown). -/
theorem claim_C9_shutdown_order_witness :
    ((⟨0, by decide⟩ : Fin ServerImpl.destructorOps.length) : Nat) <
      ((⟨1, by decide⟩ : Fin ServerImpl.destructorOps.length) : Nat) :=
  claim_C9_shutdown_order.2 ⟨0, by decide⟩ ⟨1, by decide⟩ rfl rfl

/-- C10: `main` ignores `argc` and `argv` — any two invocations produce the
same behavior — and the configuration it runs is always the fixed address
`"0.0.0.0:50051"` with insecure credentials, exit code `0`. -/
theorem claim_C10_args_ignored :
    (∀ (argc1 : Nat) (argv1 : List String) (argc2 : Nat)
       (argv2 : List String), main argc1 argv1 = main argc2 argv2) ∧
    (∀ (argc : Nat) (argv : List String),
      (main argc argv).2 =
        { address := "0.0.0.0:50051", insecureCredentials := true } ∧
      (main argc argv).1 = 0) :=
  ⟨fun _ _ _ _ => rfl, fun _ _ => ⟨rfl, rfl⟩⟩

end GreeterAsync
